import Mathlib

/-!
Verification of the preference-pair construction pipeline described by this
repository (a DPO alignment tutorial).  The repository ships only a YAML
training recipe and a notebook that narrates and invokes the pipeline script
`scripts/dpo/create_preference_dataset.py`; the script itself is not part of
the given sources.  Following the specification, the pipeline (Sampler,
Scorer, Pair Builder, Publisher) is modelled here from the spec's contracts,
and the numeric hyperparameters are taken directly from the recipe files.
-/

/-- A single input record: a math word problem together with its
ground-truth final answer, drawn from the source dataset. -/
structure Prompt where
  text : String
  groundTruth : String
  deriving DecidableEq, Repr

/-- One sampled completion for a Prompt, tagged with a boolean correctness
label and its index among the N samples drawn for that prompt. -/
structure Candidate where
  text : String
  label : Bool
  idx : Nat
  deriving DecidableEq, Repr

/-- A preference triple: prompt text, chosen (correct) completion text and
rejected (incorrect) completion text. -/
structure PreferencePair where
  prompt : String
  chosen : String
  rejected : String
  deriving DecidableEq, Repr

/-- Boolean test that `p` is an initial segment of `s` (character lists). -/
def hasPrefixL : List Char → List Char → Bool
  | [], _ => true
  | _ :: _, [] => false
  | p :: ps, c :: cs => p == c && hasPrefixL ps cs

/-- Boolean test that `pat` occurs contiguously somewhere inside `s`. -/
def hasInfixL (pat : List Char) : List Char → Bool
  | [] => hasPrefixL pat []
  | c :: cs => hasPrefixL pat (c :: cs) || hasInfixL pat cs

/-- Modelled from the spec: the exact expected-answer pattern of the
rule-based checker.  The notebook's system message instructs the model to
end with the line `The Answer is: [ANSWER]`, so the pattern for a
ground-truth answer is that marker followed by the answer.  The concrete
regex of `create_preference_dataset.py` is not in the given sources. -/
def expectedAnswerPattern (groundTruth : String) : String :=
  "The Answer is: " ++ groundTruth

/-- Modelled from the spec: the Scorer.  A total boolean function of the
candidate text and the ground-truth answer: it scores `true` exactly when
the candidate text contains the expected-answer pattern, and `false`
otherwise (an inconclusive match defaults to incorrect, never an error).
`create_preference_dataset.py` is not in the given sources. -/
def score (candidateText groundTruth : String) : Bool :=
  hasInfixL (expectedAnswerPattern groundTruth).toList candidateText.toList

/-- Label the sampled completions for one prompt, assigning indices
starting at `i` in first-seen order. -/
def labelFrom (gt : String) : Nat → List String → List Candidate
  | _, [] => []
  | i, t :: ts => ⟨t, score t gt, i⟩ :: labelFrom gt (i + 1) ts

/-- Modelled from the spec: the Scorer stage applied to all N sampled
completions for one prompt, producing labeled Candidates indexed from 0 in
first-seen order. -/
def labelCandidates (gt : String) (texts : List String) : List Candidate :=
  labelFrom gt 0 texts

/-- Modelled from the spec: the Pair Builder.  From the labeled candidates
of one prompt it selects the first-seen correct candidate as chosen and the
first-seen incorrect candidate as rejected; when either is missing, the
prompt is skipped and nothing is emitted. -/
def buildPair (promptText : String) (cands : List Candidate) :
    Option PreferencePair :=
  match cands.find? (fun c => c.label), cands.find? (fun c => !c.label) with
  | some ch, some rj => some ⟨promptText, ch.text, rj.text⟩
  | _, _ => none

/-- Modelled from the spec: the per-prompt pipeline (score the sampled
completions, then build at most one preference pair). -/
def processPrompt (p : Prompt) (texts : List String) : Option PreferencePair :=
  buildPair p.text (labelCandidates p.groundTruth texts)

/-- Modelled from the spec: the whole-dataset pipeline.  Each input prompt
comes with the completions the Sampler drew for it; the per-prompt results
are accumulated, skipped prompts contributing nothing. -/
def runPipeline (inputs : List (Prompt × List String)) : List PreferencePair :=
  inputs.filterMap fun pr => processPrompt pr.1 pr.2

/-- The Preference Pair invariant relative to one prompt and its sampled
completions: the pair carries that prompt's text, its chosen text is the
text of a candidate of that prompt labeled correct, and its rejected text
is the text of a candidate of that prompt labeled incorrect. -/
def pairInvariant (pair : PreferencePair) (p : Prompt) (texts : List String) :
    Prop :=
  pair.prompt = p.text ∧
  (∃ c ∈ labelCandidates p.groundTruth texts,
    c.text = pair.chosen ∧ c.label = true) ∧
  (∃ c ∈ labelCandidates p.groundTruth texts,
    c.text = pair.rejected ∧ c.label = false)

/-- A demonstration prompt (the spec's end-to-end scenario). -/
def demoPrompt : Prompt := ⟨"2+2?", "4"⟩

/-- The four sampled completions of the spec's end-to-end scenario. -/
def demoTexts : List String :=
  ["The Answer is: 4", "The Answer is: 5", "The Answer is: 4",
   "The Answer is: 3"]

/-- Modelled from the spec: the Sampler.  The generation backend (not in
the given sources) is abstracted as a draw function of the model
checkpoint, the decoding temperature, the prompt text and the sample
index; the Sampler requests the draws at indices `0 .. N-1`, one
completion per index. -/
def sampleCandidates (backend : String → ℚ → String → Nat → String)
    (model : String) (temperature : ℚ) (promptText : String) (N : Nat) :
    List String :=
  (List.range N).map (backend model temperature promptText)

/-- Modelled from the spec: the failure taxonomy entry for an unreachable
or timed-out generation backend. -/
inductive SampleError where
  | backendUnavailable
  deriving DecidableEq, Repr

/-- Modelled from the spec: a per-prompt run where each prompt's sampling
request either failed with a `SampleError` or returned its completions;
failed prompts contribute nothing and the rest are processed. -/
def runPipelineE
    (inputs : List (Prompt × Except SampleError (List String))) :
    List PreferencePair :=
  inputs.filterMap fun pr =>
    match pr.2 with
    | Except.error _ => none
    | Except.ok texts => processPrompt pr.1 texts

/-- Modelled from the spec: a whole run over batches.  Each batch either
failed wholly with a `SampleError` or carries its prompts with their
sampled completions; a failed batch is skipped and the remaining batches
are processed. -/
def runBatches :
    List (Except SampleError (List (Prompt × List String))) →
    List PreferencePair
  | [] => []
  | Except.error _ :: rest => runBatches rest
  | Except.ok items :: rest => runPipeline items ++ runBatches rest

/-- Modelled from the spec: the Publisher's explicit policy choices at
call time. -/
inductive PublishPolicy where
  | overwrite
  | append
  deriving DecidableEq, Repr

/-- Modelled from the spec: the Publisher.  The destination state is the
list of records currently stored (`none` when nothing was published yet);
overwrite replaces the destination content with the dataset, append
extends it. -/
def publish (policy : PublishPolicy) (ds : List PreferencePair)
    (dest : Option (List PreferencePair)) : Option (List PreferencePair) :=
  match policy with
  | PublishPolicy.overwrite => some ds
  | PublishPolicy.append => some ((dest.getD []) ++ ds)

/-- The learning rate set in the repository's SFT recipe,
`src/training/receipes/llama-3.1-8b-sft.yaml` line 28:
`learning_rate: 5e-5`. -/
def sft_recipe_learning_rate : ℚ := 5 / 100000

/-- The learning rate of the DPO recipe block quoted in the notebook:
`learning_rate: 5.0e-6`. -/
def dpo_recipe_learning_rate : ℚ := 5 / 1000000

/-- The SFT learning rate the notebook prose cites when narrating the
reduction: "we reduce the learning rate from 2e-4 (SFT) to 5e-6 (DPO)". -/
def prose_cited_sft_learning_rate : ℚ := 2 / 10000

/-! ## Substring search correctness -/

/-- `hasPrefixL` decides the initial-segment relation. -/
lemma hasPrefixL_iff (p s : List Char) :
    hasPrefixL p s = true ↔ ∃ r, s = p ++ r := by
  induction p generalizing s with
  | nil => simp [hasPrefixL]
  | cons x xs ih =>
    cases s with
    | nil => simp [hasPrefixL]
    | cons c cs =>
      simp only [hasPrefixL, Bool.and_eq_true, beq_iff_eq, ih, List.cons_append,
        List.cons.injEq]
      constructor
      · rintro ⟨rfl, r, rfl⟩
        exact ⟨r, rfl, rfl⟩
      · rintro ⟨r, rfl, rfl⟩
        exact ⟨rfl, r, rfl⟩

/-- `hasInfixL` decides the contiguous-occurrence relation. -/
lemma hasInfixL_iff (p s : List Char) :
    hasInfixL p s = true ↔ ∃ l r, s = l ++ p ++ r := by
  induction s with
  | nil =>
    simp only [hasInfixL, hasPrefixL_iff]
    constructor
    · rintro ⟨r, h⟩
      exact ⟨[], r, by simpa using h⟩
    · rintro ⟨l, r, h⟩
      exact ⟨r, by
        rcases List.append_eq_nil.mp (List.append_eq_nil.mp h.symm).1 with ⟨h1, h2⟩
        simp [h2, (List.append_eq_nil.mp h.symm).2]⟩
  | cons c cs ih =>
    simp only [hasInfixL, Bool.or_eq_true, hasPrefixL_iff, ih]
    constructor
    · rintro (⟨r, hr⟩ | ⟨l, r, hr⟩)
      · exact ⟨[], r, by simpa using hr⟩
      · exact ⟨c :: l, r, by simp [hr]⟩
    · rintro ⟨l, r, hr⟩
      cases l with
      | nil => exact Or.inl ⟨r, by simpa using hr⟩
      | cons x xs =>
        rw [List.cons_append, List.cons_append, List.cons.injEq] at hr
        exact Or.inr ⟨xs, r, hr.2⟩

/-! ## Labeled candidate facts -/

/-- Every candidate produced by `labelFrom` carries a text drawn from the
input list, a label computed by the Scorer from that text, and an index at
least the starting index. -/
lemma mem_labelFrom {gt : String} {i : Nat} {ts : List String} {c : Candidate}
    (h : c ∈ labelFrom gt i ts) :
    c.text ∈ ts ∧ c.label = score c.text gt ∧ i ≤ c.idx := by
  induction ts generalizing i with
  | nil => simp [labelFrom] at h
  | cons t rest ih =>
    simp only [labelFrom, List.mem_cons] at h
    rcases h with rfl | h
    · exact ⟨List.mem_cons_self .., rfl, Nat.le_refl _⟩
    · obtain ⟨h1, h2, h3⟩ := ih h
      exact ⟨List.mem_cons_of_mem _ h1, h2, Nat.le_of_succ_le h3⟩

/-- Every input text appears as the text of some produced candidate. -/
lemma exists_labelFrom_of_mem (gt : String) (i : Nat) {ts : List String}
    {t : String} (h : t ∈ ts) :
    ∃ c ∈ labelFrom gt i ts, c.text = t := by
  induction ts generalizing i with
  | nil => simp at h
  | cons t0 rest ih =>
    rcases List.mem_cons.mp h with rfl | h
    · exact ⟨⟨t, score t gt, i⟩, List.mem_cons_self .., rfl⟩
    · obtain ⟨c, hc, hct⟩ := ih (i + 1) h
      exact ⟨c, List.mem_cons_of_mem _ hc, hct⟩

/-- `find?` over `labelFrom` returns the qualifying candidate of least
index: every other qualifying candidate has an index at least as large. -/
lemma find?_labelFrom_min {gt : String} {i : Nat} {ts : List String}
    {p : Candidate → Bool} {c : Candidate}
    (h : (labelFrom gt i ts).find? p = some c) :
    ∀ c' ∈ labelFrom gt i ts, p c' = true → c.idx ≤ c'.idx := by
  induction ts generalizing i with
  | nil => simp [labelFrom] at h
  | cons t rest ih =>
    rw [labelFrom] at h ⊢
    by_cases hp : p ⟨t, score t gt, i⟩
    · rw [List.find?_cons_of_pos _ hp] at h
      cases h
      intro c' hc' _
      rcases List.mem_cons.mp hc' with rfl | hc'
      · exact Nat.le_refl _
      · exact Nat.le_of_succ_le (mem_labelFrom hc').2.2
    · rw [List.find?_cons_of_neg _ hp] at h
      intro c' hc' hpc'
      rcases List.mem_cons.mp hc' with rfl | hc'
      · exact absurd hpc' hp
      · exact ih h c' hc' hpc'

/-! ## Pair Builder facts -/

/-- Inversion: an emitted pair comes from a first-seen correct candidate
and a first-seen incorrect candidate. -/
lemma buildPair_eq_some {pt : String} {cands : List Candidate}
    {pair : PreferencePair} (h : buildPair pt cands = some pair) :
    ∃ ch rj, cands.find? (fun c => c.label) = some ch ∧
      cands.find? (fun c => !c.label) = some rj ∧
      pair = ⟨pt, ch.text, rj.text⟩ := by
  unfold buildPair at h
  cases h1 : cands.find? (fun c => c.label) with
  | none => rw [h1] at h; exact absurd h (by simp)
  | some ch =>
    cases h2 : cands.find? (fun c => !c.label) with
    | none => rw [h1, h2] at h; exact absurd h (by simp)
    | some rj =>
      rw [h1, h2] at h
      exact ⟨ch, rj, rfl, rfl, (Option.some.inj h).symm⟩

/-- When a correct and an incorrect candidate both exist, `buildPair`
emits the pair of the two first-seen ones. -/
lemma buildPair_some_of {pt : String} {cands : List Candidate}
    {ch rj : Candidate} (h1 : cands.find? (fun c => c.label) = some ch)
    (h2 : cands.find? (fun c => !c.label) = some rj) :
    buildPair pt cands = some ⟨pt, ch.text, rj.text⟩ := by
  unfold buildPair
  rw [h1, h2]

/-- With no correct candidate, nothing is emitted. -/
lemma buildPair_none_of_no_correct {pt : String} {cands : List Candidate}
    (h : cands.find? (fun c => c.label) = none) :
    buildPair pt cands = none := by
  unfold buildPair
  rw [h]

/-- With no incorrect candidate, nothing is emitted. -/
lemma buildPair_none_of_no_incorrect {pt : String} {cands : List Candidate}
    (h : cands.find? (fun c => !c.label) = none) :
    buildPair pt cands = none := by
  unfold buildPair
  rw [h]
  cases cands.find? (fun c => c.label) <;> rfl

/-- Emission: a prompt with at least one correct and one incorrect sampled
completion yields a pair whose chosen and rejected texts differ. -/
lemma processPrompt_emits {p : Prompt} {texts : List String}
    (h1 : ∃ t ∈ texts, score t p.groundTruth = true)
    (h2 : ∃ t ∈ texts, score t p.groundTruth = false) :
    ∃ pair, processPrompt p texts = some pair ∧
      pair.chosen ≠ pair.rejected := by
  obtain ⟨t1, ht1, hs1⟩ := h1
  obtain ⟨t2, ht2, hs2⟩ := h2
  obtain ⟨c1, hc1, hc1t⟩ := exists_labelFrom_of_mem p.groundTruth 0 ht1
  obtain ⟨c2, hc2, hc2t⟩ := exists_labelFrom_of_mem p.groundTruth 0 ht2
  have hl1 : c1.label = true := by
    rw [(mem_labelFrom hc1).2.1, hc1t]; exact hs1
  have hl2 : (!c2.label) = true := by
    rw [(mem_labelFrom hc2).2.1, hc2t, hs2]; rfl
  have hf1 : (List.find? (fun c => c.label)
      (labelCandidates p.groundTruth texts)).isSome :=
    List.find?_isSome.mpr ⟨c1, hc1, hl1⟩
  have hf2 : (List.find? (fun c => !c.label)
      (labelCandidates p.groundTruth texts)).isSome :=
    List.find?_isSome.mpr ⟨c2, hc2, hl2⟩
  obtain ⟨ch, hch⟩ := Option.isSome_iff_exists.mp hf1
  obtain ⟨rj, hrj⟩ := Option.isSome_iff_exists.mp hf2
  refine ⟨⟨p.text, ch.text, rj.text⟩, buildPair_some_of hch hrj, ?_⟩
  have hcht : score ch.text p.groundTruth = true := by
    rw [← (mem_labelFrom (List.mem_of_find?_eq_some hch)).2.1]
    exact List.find?_some hch
  have hrjt : score rj.text p.groundTruth = false := by
    rw [← (mem_labelFrom (List.mem_of_find?_eq_some hrj)).2.1]
    have := List.find?_some hrj
    revert this
    cases rj.label <;> simp
  intro heq
  rw [show (PreferencePair.mk p.text ch.text rj.text).chosen = ch.text
    from rfl, show (PreferencePair.mk p.text ch.text rj.text).rejected =
    rj.text from rfl] at heq
  rw [heq, hrjt] at hcht
  exact Bool.false_ne_true hcht

/-- Skip policy: when all sampled completions score the same, nothing is
emitted. -/
lemma processPrompt_skips {p : Prompt} {texts : List String}
    (h : ∀ t ∈ texts, ∀ u ∈ texts, score t p.groundTruth = score u p.groundTruth) :
    processPrompt p texts = none := by
  cases texts with
  | nil => rfl
  | cons t0 rest =>
    cases hb : score t0 p.groundTruth
    · apply buildPair_none_of_no_correct
      rw [List.find?_eq_none]
      intro c hc hlc
      have := (mem_labelFrom hc).2.1
      rw [h c.text (mem_labelFrom hc).1 t0 (List.mem_cons_self ..), hb] at this
      rw [this] at hlc
      exact Bool.false_ne_true hlc
    · apply buildPair_none_of_no_incorrect
      rw [List.find?_eq_none]
      intro c hc hlc
      have := (mem_labelFrom hc).2.1
      rw [h c.text (mem_labelFrom hc).1 t0 (List.mem_cons_self ..), hb] at this
      rw [this] at hlc
      exact Bool.false_ne_true hlc

/-- Every pair in the pipeline output satisfies the Preference Pair
invariant with respect to some input prompt (shared helper). -/
lemma runPipeline_invariant (inputs : List (Prompt × List String))
    (pair : PreferencePair) (h : pair ∈ runPipeline inputs) :
    ∃ pr ∈ inputs, pairInvariant pair pr.1 pr.2 := by
  obtain ⟨pr, hpr, heq⟩ := List.mem_filterMap.mp h
  unfold processPrompt at heq
  obtain ⟨ch, rj, hch, hrj, rfl⟩ := buildPair_eq_some heq
  refine ⟨pr, hpr, rfl,
    ⟨ch, List.mem_of_find?_eq_some hch, rfl, List.find?_some hch⟩,
    ⟨rj, List.mem_of_find?_eq_some hrj, rfl, ?_⟩⟩
  have h2 := List.find?_some hrj
  revert h2
  cases rj.label <;> simp

/-! ## Claim C1 -/

/-- C1: for every Prompt whose labeled Candidates include at least one
labeled correct and at least one labeled incorrect, the Pair Builder emits
exactly one Preference Pair with chosen text different from rejected text;
for every Prompt whose Candidates all share the same label, it emits zero
pairs — per Prompt the output is exactly 0 or 1 pair (the `Option` result
of `processPrompt`). -/
theorem pair_builder_zero_or_one_per_prompt (p : Prompt)
    (texts : List String) :
    ((∃ t ∈ texts, score t p.groundTruth = true) →
      (∃ t ∈ texts, score t p.groundTruth = false) →
      ∃ pair, processPrompt p texts = some pair ∧
        pair.chosen ≠ pair.rejected) ∧
    ((∀ t ∈ texts, ∀ u ∈ texts,
        score t p.groundTruth = score u p.groundTruth) →
      processPrompt p texts = none) :=
  ⟨fun h1 h2 => processPrompt_emits h1 h2, fun h => processPrompt_skips h⟩

/-- Witness for C1 on the spec's end-to-end scenario and on a prompt whose
single sample is wrong. -/
theorem pair_builder_zero_or_one_per_prompt_witness :
    (∃ pair, processPrompt demoPrompt demoTexts = some pair ∧
      pair.chosen ≠ pair.rejected) ∧
    processPrompt demoPrompt ["The Answer is: 7"] = none :=
  ⟨(pair_builder_zero_or_one_per_prompt demoPrompt demoTexts).1
      (by decide) (by decide),
   (pair_builder_zero_or_one_per_prompt demoPrompt
      ["The Answer is: 7"]).2 (by decide)⟩

/-! ## Claim C2 -/

/-- C2: every Preference Pair produced by the pipeline, for every input
dataset, satisfies the pair invariant: chosen and rejected texts originate
from Candidates of the same Prompt, chosen's label is true and rejected's
label is false. -/
theorem pipeline_pair_invariant (inputs : List (Prompt × List String))
    (pair : PreferencePair) (h : pair ∈ runPipeline inputs) :
    ∃ pr ∈ inputs, pairInvariant pair pr.1 pr.2 :=
  runPipeline_invariant inputs pair h

/-- Witness for C2: the pair produced from the end-to-end scenario
satisfies the invariant with respect to its input prompt. -/
theorem pipeline_pair_invariant_witness :
    ∃ pr ∈ [(demoPrompt, demoTexts)],
      pairInvariant ⟨"2+2?", "The Answer is: 4", "The Answer is: 5"⟩
        pr.1 pr.2 :=
  pipeline_pair_invariant [(demoPrompt, demoTexts)]
    ⟨"2+2?", "The Answer is: 4", "The Answer is: 5"⟩ (by decide)

/-! ## Claim C3 -/

/-- C3: the Scorer is a total boolean function of candidate text and
ground-truth answer: any text containing the exact expected-answer pattern
scores true, and any text lacking it (an inconclusive match included)
scores false rather than raising an error. -/
theorem scorer_total_round_trip (candidateText groundTruth : String) :
    ((∃ l r, candidateText.toList =
        l ++ (expectedAnswerPattern groundTruth).toList ++ r) →
      score candidateText groundTruth = true) ∧
    ((¬ ∃ l r, candidateText.toList =
        l ++ (expectedAnswerPattern groundTruth).toList ++ r) →
      score candidateText groundTruth = false) := by
  constructor
  · intro h
    exact (hasInfixL_iff _ _).mpr h
  · intro h
    cases hs : score candidateText groundTruth
    · rfl
    · exact absurd ((hasInfixL_iff _ _).mp hs) h

/-- Witness for C3: a text containing the pattern for answer 4 scores
correct, and a text lacking it scores incorrect. -/
theorem scorer_total_round_trip_witness :
    score "The Answer is: 4" "4" = true ∧
    score "The Answer is: 5" "4" = false :=
  ⟨(scorer_total_round_trip "The Answer is: 4" "4").1 ⟨[], [], by decide⟩,
   (scorer_total_round_trip "The Answer is: 5" "4").2 (fun h =>
     absurd ((scorer_total_round_trip "The Answer is: 5" "4").1 h)
       (by decide))⟩

/-! ## Claim C4 -/

/-- C4: the Pair Builder is deterministic — two runs on the same candidate
set with the same labels give the same output — and it breaks ties among
multiple qualifying candidates by the smallest (first-seen) index, for the
chosen and the rejected side alike. -/
theorem pair_builder_deterministic_tie_break (p : Prompt)
    (texts1 texts2 : List String) (hsame : texts1 = texts2) :
    processPrompt p texts1 = processPrompt p texts2 ∧
    ∀ pair, processPrompt p texts1 = some pair →
      ∃ ch rj,
        (labelCandidates p.groundTruth texts1).find?
          (fun c => c.label) = some ch ∧
        (labelCandidates p.groundTruth texts1).find?
          (fun c => !c.label) = some rj ∧
        pair.chosen = ch.text ∧ pair.rejected = rj.text ∧
        (∀ c ∈ labelCandidates p.groundTruth texts1,
          c.label = true → ch.idx ≤ c.idx) ∧
        (∀ c ∈ labelCandidates p.groundTruth texts1,
          c.label = false → rj.idx ≤ c.idx) := by
  subst hsame
  refine ⟨rfl, ?_⟩
  intro pair h
  unfold processPrompt at h
  obtain ⟨ch, rj, hch, hrj, rfl⟩ := buildPair_eq_some h
  refine ⟨ch, rj, hch, hrj, rfl, rfl, ?_, ?_⟩
  · intro c hc hcl
    exact find?_labelFrom_min hch c hc hcl
  · intro c hc hcl
    refine find?_labelFrom_min hrj c hc ?_
    show (!c.label) = true
    rw [hcl]
    rfl

/-- Witness for C4 on the end-to-end scenario, where two candidates are
labeled correct and two incorrect: the selected ones carry the least
indices on each side. -/
theorem pair_builder_deterministic_tie_break_witness :
    ∃ ch rj,
      (labelCandidates demoPrompt.groundTruth demoTexts).find?
        (fun c => c.label) = some ch ∧
      (labelCandidates demoPrompt.groundTruth demoTexts).find?
        (fun c => !c.label) = some rj ∧
      (PreferencePair.mk "2+2?" "The Answer is: 4"
        "The Answer is: 5").chosen = ch.text ∧
      (PreferencePair.mk "2+2?" "The Answer is: 4"
        "The Answer is: 5").rejected = rj.text ∧
      (∀ c ∈ labelCandidates demoPrompt.groundTruth demoTexts,
        c.label = true → ch.idx ≤ c.idx) ∧
      (∀ c ∈ labelCandidates demoPrompt.groundTruth demoTexts,
        c.label = false → rj.idx ≤ c.idx) :=
  (pair_builder_deterministic_tie_break demoPrompt demoTexts demoTexts
    rfl).2 ⟨"2+2?", "The Answer is: 4", "The Answer is: 5"⟩ (by decide)

/-! ## Claim C5 -/

/-- C5: for a run over 1500 input Prompts with 4 samples each, the output
Preference Dataset contains at most 1500 pairs (at most one per input
Prompt), and every record satisfies the Preference Pair invariant. -/
theorem scale_scenario_1500 (inputs : List (Prompt × List String))
    (hlen : inputs.length = 1500)
    (_hN : ∀ pr ∈ inputs, pr.2.length = 4) :
    (runPipeline inputs).length ≤ 1500 ∧
    ∀ pair ∈ runPipeline inputs,
      ∃ pr ∈ inputs, pairInvariant pair pr.1 pr.2 := by
  constructor
  · rw [← hlen]
    exact List.length_filterMap_le _ _
  · intro pair h
    exact runPipeline_invariant inputs pair h

/-- Witness for C5 on a concrete run of 1500 copies of the end-to-end
scenario, 4 samples each. -/
theorem scale_scenario_1500_witness :
    (runPipeline (List.replicate 1500 (demoPrompt, demoTexts))).length ≤
      1500 ∧
    ∀ pair ∈ runPipeline (List.replicate 1500 (demoPrompt, demoTexts)),
      ∃ pr ∈ List.replicate 1500 (demoPrompt, demoTexts),
        pairInvariant pair pr.1 pr.2 :=
  scale_scenario_1500 _
    (List.length_replicate 1500 (demoPrompt, demoTexts))
    (fun pr hpr => by rw [List.eq_of_mem_replicate hpr]; decide)

/-! ## Claim C6 -/

/-- C6: for every prompt and every sample count N with N ≥ 2, a
successful Sampler call under non-zero temperature produces exactly N
candidates, the i-th being the backend's own draw at index i from the
specified model checkpoint. -/
theorem sampler_exactly_N
    (backend : String → ℚ → String → Nat → String) (model : String)
    (temperature : ℚ) (promptText : String) (N : Nat)
    (_hN : 2 ≤ N) (_htemp : 0 < temperature) :
    (sampleCandidates backend model temperature promptText N).length = N ∧
    ∀ i, i < N →
      (sampleCandidates backend model temperature promptText N)[i]? =
        some (backend model temperature promptText i) := by
  constructor
  · simp [sampleCandidates]
  · intro i hi
    simp [sampleCandidates, hi]

/-- Witness for C6 at N = 4 and temperature 1. -/
theorem sampler_exactly_N_witness :
    (sampleCandidates (fun _ _ _ i => Nat.repr i) "m" 1 "q" 4).length =
      4 ∧
    ∀ i, i < 4 →
      (sampleCandidates (fun _ _ _ i => Nat.repr i) "m" 1 "q" 4)[i]? =
        some ((fun _ _ _ i => Nat.repr i) "m" (1 : ℚ) "q" i) :=
  sampler_exactly_N _ "m" 1 "q" 4 (by decide) (by norm_num)

/-! ## Claim C7 -/

/-- C7: failures are local.  A prompt whose sampling request failed with
`SampleError.backendUnavailable` contributes nothing while every other
prompt is still processed, and a batch that failed wholly is skipped while
every other batch is still processed: no single prompt's or batch's
failure aborts the whole run. -/
theorem failure_locality
    (xs ys : List (Prompt × Except SampleError (List String)))
    (p : Prompt)
    (bs1 bs2 : List (Except SampleError (List (Prompt × List String))))
    (e1 e2 : SampleError) :
    runPipelineE (xs ++ (p, Except.error e1) :: ys) =
      runPipelineE (xs ++ ys) ∧
    runBatches (bs1 ++ Except.error e2 :: bs2) =
      runBatches (bs1 ++ bs2) := by
  constructor
  · simp [runPipelineE, List.filterMap_append]
  · induction bs1 with
    | nil => rfl
    | cons b rest ih =>
      cases b with
      | error e3 =>
        rw [List.cons_append, List.cons_append]
        show runBatches (rest ++ Except.error e2 :: bs2) =
          runBatches (rest ++ bs2)
        exact ih
      | ok items =>
        rw [List.cons_append, List.cons_append]
        show runPipeline items ++ runBatches (rest ++ Except.error e2 :: bs2) =
          runPipeline items ++ runBatches (rest ++ bs2)
        rw [ih]

/-! ## Claim C8 -/

/-- C8: the Publisher is idempotent under the overwrite policy:
publishing the same dataset twice to the same destination leaves the
destination in the state a single publish produces. -/
theorem publisher_idempotent_overwrite (ds : List PreferencePair)
    (dest : Option (List PreferencePair)) :
    publish PublishPolicy.overwrite ds
        (publish PublishPolicy.overwrite ds dest) =
      publish PublishPolicy.overwrite ds dest := rfl

/-! ## Claim C9 -/

/-- C9: the pipeline's output content is invariant under reordering of
the input prompts: a permutation of the inputs permutes the output, so
the same set of Preference Pairs is produced. -/
theorem pipeline_permutation_invariant
    (inputs1 inputs2 : List (Prompt × List String))
    (h : inputs1.Perm inputs2) :
    (runPipeline inputs1).Perm (runPipeline inputs2) ∧
    ∀ pair, pair ∈ runPipeline inputs1 ↔ pair ∈ runPipeline inputs2 := by
  have hp : (runPipeline inputs1).Perm (runPipeline inputs2) :=
    h.filterMap _
  exact ⟨hp, fun pair => hp.mem_iff⟩

/-- Witness for C9 on two inputs listed in the two possible orders. -/
theorem pipeline_permutation_invariant_witness :
    (runPipeline [(demoPrompt, demoTexts),
        (demoPrompt, ["The Answer is: 7", "The Answer is: 4"])]).Perm
      (runPipeline [(demoPrompt, ["The Answer is: 7", "The Answer is: 4"]),
        (demoPrompt, demoTexts)]) ∧
    ∀ pair,
      pair ∈ runPipeline [(demoPrompt, demoTexts),
        (demoPrompt, ["The Answer is: 7", "The Answer is: 4"])] ↔
      pair ∈ runPipeline [(demoPrompt, ["The Answer is: 7",
        "The Answer is: 4"]), (demoPrompt, demoTexts)] :=
  pipeline_permutation_invariant _ _ (List.Perm.swap _ _ _)

/-! ## Claim C10 -/

/-- C10 counterexample: the claim asserts that the DPO learning rate
5.0e-6 is not one fortieth of the 2e-4 SFT value the notebook prose
cites, but it is exactly one fortieth of it (5.0e-6 × 40 = 2e-4), so the
claim as stated is false. -/
theorem dpo_lr_claim_counterexample :
    ¬ (dpo_recipe_learning_rate * 10 = sft_recipe_learning_rate ∧
       dpo_recipe_learning_rate * 40 ≠ prose_cited_sft_learning_rate) := by
  rintro ⟨-, h⟩
  exact h (by norm_num [dpo_recipe_learning_rate,
    prose_cited_sft_learning_rate])

/-- C10 amended: the DPO configuration's learning rate (5.0e-6) is
exactly one tenth of the learning rate set in the repository's SFT recipe
(5e-5) — a reduction factor of 10, within the prescribed 10x–100x — and
it is simultaneously exactly one fortieth of the 2e-4 SFT value the
notebook prose cites. -/
theorem dpo_lr_one_tenth_of_sft_recipe :
    dpo_recipe_learning_rate * 10 = sft_recipe_learning_rate ∧
    (10 : ℚ) ≤ sft_recipe_learning_rate / dpo_recipe_learning_rate ∧
    sft_recipe_learning_rate / dpo_recipe_learning_rate ≤ 100 ∧
    dpo_recipe_learning_rate * 40 = prose_cited_sft_learning_rate := by
  norm_num [sft_recipe_learning_rate, dpo_recipe_learning_rate,
    prose_cited_sft_learning_rate]
